import Mathlib

/-!
# Verification of the download-manager core (`src/app.py`)

Shallow embedding of the resumable-download engine of `app.py`:
the `human_size` formatter, the `DownloadItem` worker's pre-stream
phase (HEAD probe, resumption decision, total-size derivation), the
streaming loop, the rate/ETA estimator, `DownloadItem.start`, the
supervisor's `on_start_all` predicate and `refresh_row`'s progress
percentage.  Byte counts are `ℕ`, wall-clock times and rates are `ℚ`.
-/

namespace App

/-! ## `human_size` (app.py lines 59-69) -/

/-- The unit list of `human_size`: `units = ["B", "KB", "MB", "GB", "TB"]`. -/
def humanUnits : List String := ["B", "KB", "MB", "GB", "TB"]

/-- The `while num_bytes >= 1024 and i < len(units) - 1` loop of
`human_size`, dividing by 1024 and bumping the unit index. -/
def humanLoop (n : ℚ) (i : ℕ) : ℚ × ℕ :=
  if h : 1024 ≤ n ∧ i < humanUnits.length - 1 then
    humanLoop (n / 1024) (i + 1)
  else
    (n, i)
termination_by humanUnits.length - 1 - i
decreasing_by
  simp only [humanUnits, List.length] at h ⊢
  omega

/-- Renders a rational with one decimal digit, modelling Python's
`f"{num_bytes:.1f}"` (rounding of the exact value; binary-float rounding
artifacts are out of model). Only reached for non-negative inputs. -/
def fmt1 (q : ℚ) : String :=
  let t : ℤ := ⌊q * 10 + 1 / 2⌋
  toString (t / 10) ++ "." ++ toString (t % 10)

/-- `human_size` (app.py lines 59-69): `None → "?"`, negative → `"0 B"`,
otherwise divide down by 1024 and attach the unit. -/
def human_size (numBytes : Option ℚ) : String :=
  match numBytes with
  | none => "?"
  | some n =>
    if n < 0 then "0 B"
    else
      let p := humanLoop n 0
      fmt1 p.1 ++ " " ++ humanUnits.getD p.2 ""

theorem humanLoop_idx_lt (n : ℚ) (i : ℕ) (hi : i < humanUnits.length) :
    (humanLoop n i).2 < humanUnits.length := by
  unfold humanLoop
  split
  · next h =>
    exact humanLoop_idx_lt (n / 1024) (i + 1)
      (by simp only [humanUnits, List.length] at h ⊢; omega)
  · simpa using hi
termination_by humanUnits.length - 1 - i
decreasing_by
  simp only [humanUnits, List.length] at *
  omega

/-- C10: `human_size` is total and handles edge inputs: `None` yields `"?"`,
every negative input yields `"0 B"`, and every non-negative input is rendered
with a unit drawn from `{B, KB, MB, GB, TB}`. -/
theorem human_size_edge_cases (x : Option ℚ) :
    (x = none → human_size x = "?") ∧
    (∀ q : ℚ, x = some q → q < 0 → human_size x = "0 B") ∧
    (∀ q : ℚ, x = some q → 0 ≤ q →
      ∃ u ∈ humanUnits, ∃ s, human_size x = s ++ " " ++ u) := by
  refine ⟨?_, ?_, ?_⟩
  · rintro rfl; rfl
  · rintro q rfl hq
    simp [human_size, hq]
  · rintro q rfl hq
    have hlt : (humanLoop q 0).2 < humanUnits.length :=
      humanLoop_idx_lt q 0 (by simp [humanUnits])
    refine ⟨humanUnits.getD (humanLoop q 0).2 "", ?_, fmt1 (humanLoop q 0).1, ?_⟩
    · rw [List.getD_eq_getElem _ _ hlt]
      exact List.getElem_mem hlt
    · simp [human_size, not_lt.2 hq]

/-- Witness for C10 at concrete inputs. -/
theorem human_size_edge_cases_witness :
    (∃ u ∈ humanUnits, ∃ s, human_size (some 2048) = s ++ " " ++ u) ∧
    human_size (some (-3)) = "0 B" ∧ human_size none = "?" :=
  ⟨(human_size_edge_cases (some 2048)).2.2 2048 rfl (by norm_num),
   (human_size_edge_cases (some (-3))).2.1 (-3) rfl (by norm_num),
   (human_size_edge_cases none).1 rfl⟩

/-! ## Worker pre-stream phase (app.py lines 236-305)

The `_worker` body up to the streaming loop: resolve the resumption offset,
run the HEAD probe, decide resumption (Range header and file-open mode),
then derive `total_size` from the GET response. -/

/-- Outcome of a successful HEAD request as the worker reads it
(lines 267-271): whether `Accept-Ranges` lower-cases to `"bytes"`, and the
`Content-Length` header when present. -/
structure HeadResponse where
  acceptRangesBytes : Bool
  contentLength : Option ℕ
deriving DecidableEq, Repr

/-- The GET response fields the worker consumes (lines 293-305). -/
structure GetResponse where
  status : ℕ
  contentLength : Option ℕ
deriving DecidableEq, Repr

/-- File-open mode for the partial file: `"wb"` (truncating write) or
`"ab"` (append). -/
inductive Mode
  | wb
  | ab
deriving DecidableEq, Repr

/-- The HEAD probe (lines 265-275): on success, `supports_range` is set from
the `Accept-Ranges` header and `total_size` from `Content-Length` when that
header is present; on an exception (`resp = none`) both fields keep their
previous values and the run proceeds. -/
def probeStep (supportsRange : Bool) (totalSize : Option ℕ)
    (resp : Option HeadResponse) : Bool × Option ℕ :=
  match resp with
  | some h =>
    (h.acceptRangesBytes,
     match h.contentLength with
     | some n => some n
     | none => totalSize)
  | none => (supportsRange, totalSize)

/-- The resumption decision (lines 277-291): Range header, open mode, and the
updated `existing` / `self.downloaded` values. -/
structure ResumePlan where
  rangeHeader : Option ℕ
  mode : Mode
  existing : ℕ
  downloaded : ℕ
deriving DecidableEq, Repr

/-- Lines 277-291: with `existing > 0` and range support, request
`bytes={existing}-`, open for append and set `downloaded = existing`;
with `existing > 0` and no range support, reset `existing` and `downloaded`
to 0 keeping the default `"wb"` mode; with `existing == 0`, keep the default
`"wb"` mode and leave `downloaded` untouched. -/
def decideResume (existing : ℕ) (supportsRange : Bool) (downloaded : ℕ) :
    ResumePlan :=
  if existing > 0 then
    if supportsRange then
      { rangeHeader := some existing, mode := Mode.ab,
        existing := existing, downloaded := existing }
    else
      { rangeHeader := none, mode := Mode.wb, existing := 0, downloaded := 0 }
  else
    { rangeHeader := none, mode := Mode.wb,
      existing := existing, downloaded := downloaded }

/-- Lines 296-305: if `total_size` is still `None`, derive it from the GET
response's `Content-Length`: for a resumed ranged fetch confirmed by status
206 it is `existing + length`, otherwise it is `length` alone. -/
def updateTotalSize (totalSize : Option ℕ) (existing : ℕ)
    (supportsRange : Bool) (r : GetResponse) : Option ℕ :=
  match totalSize with
  | some t => some t
  | none =>
    match r.contentLength with
    | none => none
    | some length =>
      if existing ≠ 0 ∧ supportsRange = true ∧ r.status = 206 then
        some (existing + length)
      else
        some length

/-- Everything the pre-stream phase fixes before the body is streamed. -/
structure PreparedRun where
  mode : Mode
  rangeHeader : Option ℕ
  existing : ℕ
  downloaded : ℕ
  totalSize : Option ℕ
deriving DecidableEq, Repr

/-- The worker's complete pre-stream pipeline (lines 244-305): resolve
`existing` from the partial file's size, run the HEAD probe, decide
resumption, and derive `total_size` from the GET response.  The open mode is
fixed by `decideResume` before the GET is issued and is never revised
afterwards. -/
def prepareRun (partSize : Option ℕ) (priorSupportsRange : Bool)
    (priorTotalSize : Option ℕ) (priorDownloaded : ℕ)
    (headResp : Option HeadResponse) (getResp : GetResponse) : PreparedRun :=
  let existing := partSize.getD 0
  let probed := probeStep priorSupportsRange priorTotalSize headResp
  let plan := decideResume existing probed.1 priorDownloaded
  let total := updateTotalSize probed.2 plan.existing probed.1 getResp
  { mode := plan.mode, rangeHeader := plan.rangeHeader,
    existing := plan.existing, downloaded := plan.downloaded,
    totalSize := total }

/-- C4: the resumption decision — resume with a `bytes=[existing,end)` range
header, append mode and `downloaded = existing` when the server supports
ranges; otherwise reset to 0 with truncating write; truncating write with no
range header when nothing is on disk. -/
theorem resume_decision (existing downloaded : ℕ) (sr : Bool) :
    (existing > 0 → sr = true →
      decideResume existing sr downloaded =
        { rangeHeader := some existing, mode := Mode.ab,
          existing := existing, downloaded := existing }) ∧
    (existing > 0 → sr = false →
      decideResume existing sr downloaded =
        { rangeHeader := none, mode := Mode.wb,
          existing := 0, downloaded := 0 }) ∧
    (existing = 0 →
      decideResume existing sr downloaded =
        { rangeHeader := none, mode := Mode.wb,
          existing := existing, downloaded := downloaded }) := by
  refine ⟨?_, ?_, ?_⟩
  · rintro h rfl; simp [decideResume, h]
  · rintro h rfl; simp [decideResume, h]
  · rintro rfl; simp [decideResume]

/-- Witness for C4 at concrete inputs. -/
theorem resume_decision_witness :
    decideResume 4000 true 0 =
      { rangeHeader := some 4000, mode := Mode.ab,
        existing := 4000, downloaded := 4000 } ∧
    decideResume 4000 false 7 =
      { rangeHeader := none, mode := Mode.wb, existing := 0, downloaded := 0 } ∧
    decideResume 0 true 5 =
      { rangeHeader := none, mode := Mode.wb, existing := 0, downloaded := 5 } :=
  ⟨(resume_decision 4000 0 true).1 (by norm_num) rfl,
   (resume_decision 4000 7 false).2.1 (by norm_num) rfl,
   (resume_decision 0 5 true).2.2 rfl⟩

/-- C1 (code evaluated at the failing input): partial file of 4000 bytes, a
HEAD that advertises range support without a length, and a GET that answers
a ranged request with status 200 and `Content-Length: 10000`.  The worker
derives `total_size = 10000` from the 200 response alone, but the open mode
was fixed to append before the GET and is never switched to truncating
write, so the full 200 body is appended after the 4000 existing bytes. -/
theorem ranged_200_keeps_append_mode :
    prepareRun (some 4000) false none 0
        (some { acceptRangesBytes := true, contentLength := none })
        { status := 200, contentLength := some 10000 } =
      { mode := Mode.ab, rangeHeader := some 4000, existing := 4000,
        downloaded := 4000, totalSize := some 10000 } := by
  rfl

/-- C3 counterexample: a run of a task whose earlier attempt set
`supports_range = true` and `total_size = 500`; the HEAD probe fails, yet
the run proceeds with `supports_range` still `true` and `total_size` still
`500` — not `false` and unknown as the claim states. -/
theorem probe_failure_resets_counterexample :
    ¬ probeStep true (some 500) none = (false, none) := by
  decide

/-- C3 amended: a failed HEAD probe is non-fatal — the run proceeds to the
resumption decision exactly as if the probe had reconfirmed the prior
`supports_range` / `total_size` values; those values are `false` and unknown
on a first attempt (the dataclass defaults), but an earlier attempt's values
are retained, not reset. -/
theorem probe_failure_nonfatal (sr : Bool) (ts : Option ℕ) (part : Option ℕ)
    (d : ℕ) (g : GetResponse) :
    probeStep sr ts none = (sr, ts) ∧
    prepareRun part sr ts d none g =
      prepareRun part sr ts d
        (some { acceptRangesBytes := sr, contentLength := ts }) g := by
  constructor
  · rfl
  · cases ts <;> rfl

/-! ## `DownloadItem.start` (app.py lines 220-225) -/

/-- A `DownloadItem`'s control fields and observable task state, as far as
`start` can touch them. `threadAlive` models `self._thread is not None and
self._thread.is_alive()`, `stopEventSet` models `self._stop_event`. -/
structure Item where
  threadAlive : Bool
  stopEventSet : Bool
  status : String
  totalSize : Option ℕ
  downloaded : ℕ
  supportsRange : Bool
deriving DecidableEq, Repr

/-- `DownloadItem.start` (lines 220-225): return immediately when a worker
thread is already alive; otherwise clear the stop event and spawn a worker.
The boolean reports whether a new execution context was spawned. -/
def start (it : Item) : Item × Bool :=
  if it.threadAlive then (it, false)
  else ({ it with stopEventSet := false, threadAlive := true }, true)

/-- C5: calling `start` while an execution is active is a no-op — no new
execution context is spawned, the stop flag is not cleared, and the task
state is returned unchanged. -/
theorem start_idempotent (it : Item) (h : it.threadAlive = true) :
    start it = (it, false) := by
  simp [start, h]

/-- Witness for C5: an active, pausing task with the stop flag set is left
exactly as it was. -/
theorem start_idempotent_witness :
    start { threadAlive := true, stopEventSet := true, status := "Pausing...",
            totalSize := some 10000, downloaded := 4000,
            supportsRange := true } =
      ({ threadAlive := true, stopEventSet := true, status := "Pausing...",
         totalSize := some 10000, downloaded := 4000,
         supportsRange := true }, false) :=
  start_idempotent _ rfl

/-! ## Completion and rename (app.py lines 352-361) -/

/-- On-disk state around completion: whether `<dest>.part` and the final
destination file exist. -/
structure FsState where
  partExists : Bool
  destExists : Bool
deriving DecidableEq, Repr

/-- The task fields the completion epilogue writes. -/
structure TaskObs where
  status : String
  speed_bps : ℚ
  eta_seconds : Option ℚ
deriving DecidableEq, Repr

/-- Lines 352-361: after the body is exhausted without cancellation, attempt
`shutil.move(part_path, dest_path)`; on failure the `except: pass` keeps the
partial file untouched; in both cases status becomes `"Done"` and speed/ETA
are reset to zero. -/
def completeRun (renameOk : Bool) (fs : FsState) (t : TaskObs) :
    FsState × TaskObs :=
  ((if renameOk then { partExists := false, destExists := true } else fs),
   { t with status := "Done", speed_bps := 0, eta_seconds := some 0 })

/-- C2 counterexample: after a failed rename of a downloading task, the
observable task state is exactly the one of a successful rename — status is
plainly `"Done"`, so nothing about the failure is surfaced via the status
string. -/
theorem rename_failure_surfaced_counterexample :
    (completeRun false { partExists := true, destExists := false }
        { status := "Downloading", speed_bps := 5, eta_seconds := some 2
        }).2.status = "Done" ∧
    (completeRun false { partExists := true, destExists := false }
        { status := "Downloading", speed_bps := 5, eta_seconds := some 2 }).2 =
    (completeRun true { partExists := true, destExists := false }
        { status := "Downloading", speed_bps := 5, eta_seconds := some 2
        }).2 :=
  ⟨rfl, rfl⟩

/-- C2 amended: when the rename fails the partial file is left in place and
the task is still marked `Done`, but the failure is swallowed silently — the
status string is exactly `"Done"`, indistinguishable from the success
path. -/
theorem rename_failure_silent (fs : FsState) (t : TaskObs) :
    (completeRun false fs t).1 = fs ∧
    (completeRun false fs t).2.status = "Done" ∧
    (completeRun false fs t).2 = (completeRun true fs t).2 :=
  ⟨rfl, rfl, rfl⟩

/-! ## `refresh_row` progress percentage (app.py lines 931-936) -/

/-- The progress percentage `refresh_row` stores in the row (lines 931-936):
with a known positive total, `int((downloaded / total_size) * 100)` clamped
to `[0, 100]`; in every other case the integer `0`.  (Python's `int()`
truncates toward zero; the quotient here is never negative, so it is the
floor.) -/
def progressPct (totalSize : Option ℕ) (downloaded : ℕ) : ℤ :=
  match totalSize with
  | some ts =>
    if ts > 0 then
      max 0 (min 100 ⌊((downloaded : ℚ) / (ts : ℚ)) * 100⌋)
    else 0
  | none => 0

/-- C7 counterexample: a run whose `total_size` stays unknown reports the
concrete number `0` as its progress percentage — not an indeterminate
value (the row's progress column holds a plain integer). -/
theorem unknown_length_pct_counterexample : progressPct none 500 = 0 :=
  rfl

/-- C7 amended: whenever `total_size` is unknown, every snapshot of the run
reports progress percentage `0`; no indeterminate progress value exists in
the row model. -/
theorem unknown_length_pct_zero (d : ℕ) : progressPct none d = 0 :=
  rfl

/-! ## `on_start_all` (app.py lines 878-885) -/

/-- Python's `str.startswith`, as a prefix test on the character list. -/
def pyStartsWith (s p : String) : Bool :=
  p.data.isPrefixOf s.data

/-- The resumability test of `on_start_all` (lines 881-884): status equal to
`"Queued"` or `"Paused"`, or starting with one of the five error
prefixes. -/
def startAllPred (s : String) : Bool :=
  (s == "Queued" || s == "Paused") ||
  (pyStartsWith s "Connection error:" || pyStartsWith s "Timeout error:" ||
   pyStartsWith s "Request error:" || pyStartsWith s "HTTP error:" ||
   pyStartsWith s "Error:")

/-- Every status a `DownloadItem` ever carries: the dataclass default
(line 202), the strings assigned by `pause` (line 230), `_worker`
(lines 238, 266, 274, 285, 290, 292, 314, 320, 358) and its exception
handlers (lines 362-376).  The failure constructors carry the dynamic
detail their f-strings embed. -/
inductive StatusKind
  | queued
  | pausing
  | starting
  | checkingInfo
  | startingDownload
  | resumingFrom (sz : String)
  | cannotResume
  | connecting
  | downloading
  | paused
  | done
  | connectionError
  | timeoutError
  | requestError (detail : String)
  | httpError (code : ℕ)
  | otherError (detail : String)
deriving DecidableEq, Repr

/-- The status string each `StatusKind` renders to in the source. -/
def StatusKind.render : StatusKind → String
  | queued => "Queued"
  | pausing => "Pausing..."
  | starting => "Starting..."
  | checkingInfo => "Checking file info..."
  | startingDownload => "Starting download..."
  | resumingFrom sz => "Resuming from " ++ (sz ++ "...")
  | cannotResume => "Cannot resume, restarting..."
  | connecting => "Connecting..."
  | downloading => "Downloading"
  | paused => "Paused"
  | done => "Done"
  | connectionError => "Connection error: Network unreachable"
  | timeoutError => "Timeout error: Server took too long to respond"
  | requestError d => "Request error: " ++ d
  | httpError c => "HTTP error: " ++ toString c
  | otherError d => "Error: " ++ d

/-- A failure status: one of the five terminal error outcomes. -/
def StatusKind.isFailure : StatusKind → Bool
  | connectionError => true
  | timeoutError => true
  | requestError _ => true
  | httpError _ => true
  | otherError _ => true
  | _ => false

/-- Written from the claim's words (spec §4.3, §9): a status is resumable
when it is `Queued`, `Paused`, or any failure status — every
fatal-but-not-`Done` status. -/
def resumableSpec : StatusKind → Bool
  | StatusKind.queued => true
  | StatusKind.paused => true
  | k => k.isFailure

/-- A row of the supervisor's store as `on_start_all` sees it: whether the
item's worker thread is alive, and the item's status. -/
structure Row where
  active : Bool
  kind : StatusKind
deriving DecidableEq, Repr

/-- The tasks `on_start_all` (lines 878-885) calls `.start()` on: those not
currently active whose status passes the resumability test. -/
def startAllStarted (rows : List Row) : List Row :=
  rows.filter (fun r => !r.active && startAllPred r.kind.render)

theorem isPrefixOf_append_of_length_le {p c : List Char} (t : List Char)
    (h : p.length ≤ c.length) :
    p.isPrefixOf (c ++ t) = p.isPrefixOf c := by
  induction p generalizing c with
  | nil => simp [List.isPrefixOf]
  | cons a as ih =>
    cases c with
    | nil => simp at h
    | cons b bs =>
      show (a == b && as.isPrefixOf (bs ++ t)) = (a == b && as.isPrefixOf bs)
      rw [ih (by simpa using h)]

theorem isPrefixOf_cons_false {a b : Char} (hab : (a == b) = false)
    (as bs : List Char) :
    (a :: as).isPrefixOf (b :: bs) = false := by
  simp [List.isPrefixOf, hab]

theorem string_beq_false_of_data_ne {s t : String} (h : s.data ≠ t.data) :
    (s == t) = false := by
  rw [beq_eq_false_iff_ne]
  intro he
  exact h (congrArg String.data he)

theorem pyStartsWith_of_space {pre spc : String}
    (h : spc.data = pre.data ++ [' ']) (tail : String) :
    pyStartsWith (spc ++ tail) pre = true := by
  unfold pyStartsWith
  rw [String.data_append, h, List.append_assoc, List.isPrefixOf_iff_prefix]
  exact List.prefix_append _ _

theorem startAllPred_render (k : StatusKind) :
    startAllPred k.render = resumableSpec k := by
  cases k with
  | resumingFrom sz =>
    have hdata : ("Resuming from " ++ (sz ++ "...")).data =
        'R' :: ("esuming from ".data ++ (sz ++ "...").data) := by
      rw [String.data_append]
      rfl
    have h1 : (("Resuming from " ++ (sz ++ "...")) == "Queued") = false := by
      apply string_beq_false_of_data_ne
      rw [hdata]
      intro h
      simp at h
    have h2 : (("Resuming from " ++ (sz ++ "...")) == "Paused") = false := by
      apply string_beq_false_of_data_ne
      rw [hdata]
      intro h
      simp at h
    have h3 : pyStartsWith ("Resuming from " ++ (sz ++ "..."))
        "Connection error:" = false := by
      unfold pyStartsWith
      rw [hdata]
      exact isPrefixOf_cons_false (by decide) _ _
    have h4 : pyStartsWith ("Resuming from " ++ (sz ++ "..."))
        "Timeout error:" = false := by
      unfold pyStartsWith
      rw [hdata]
      exact isPrefixOf_cons_false (by decide) _ _
    have h5 : pyStartsWith ("Resuming from " ++ (sz ++ "..."))
        "Request error:" = false := by
      unfold pyStartsWith
      rw [String.data_append, isPrefixOf_append_of_length_le _ (by decide)]
      decide
    have h6 : pyStartsWith ("Resuming from " ++ (sz ++ "..."))
        "HTTP error:" = false := by
      unfold pyStartsWith
      rw [hdata]
      exact isPrefixOf_cons_false (by decide) _ _
    have h7 : pyStartsWith ("Resuming from " ++ (sz ++ "...")) "Error:" =
        false := by
      unfold pyStartsWith
      rw [hdata]
      exact isPrefixOf_cons_false (by decide) _ _
    simp [StatusKind.render, startAllPred, resumableSpec, StatusKind.isFailure,
      h1, h2, h3, h4, h5, h6, h7]
  | requestError d =>
    have h : pyStartsWith ("Request error: " ++ d) "Request error:" = true :=
      pyStartsWith_of_space rfl d
    simp [StatusKind.render, startAllPred, resumableSpec,
      StatusKind.isFailure, h]
  | httpError c =>
    have h : pyStartsWith ("HTTP error: " ++ toString c) "HTTP error:" =
        true :=
      pyStartsWith_of_space rfl (toString c)
    simp [StatusKind.render, startAllPred, resumableSpec,
      StatusKind.isFailure, h]
  | otherError d =>
    have h : pyStartsWith ("Error: " ++ d) "Error:" = true :=
      pyStartsWith_of_space rfl d
    simp [StatusKind.render, startAllPred, resumableSpec,
      StatusKind.isFailure, h]
  | queued => decide
  | pausing => decide
  | starting => decide
  | checkingInfo => decide
  | startingDownload => decide
  | cannotResume => decide
  | connecting => decide
  | downloading => decide
  | paused => decide
  | done => decide
  | connectionError => decide
  | timeoutError => decide

/-- C8: `on_start_all` starts exactly the rows whose item is not currently
active and whose status is resumable — `Queued`, `Paused`, or any failure
status (every fatal-but-not-`Done` status) — and no other row. -/
theorem start_all_exact (rows : List Row) (r : Row) :
    r ∈ startAllStarted rows ↔
      r ∈ rows ∧ r.active = false ∧ resumableSpec r.kind = true := by
  simp only [startAllStarted, List.mem_filter, startAllPred_render,
    Bool.and_eq_true, Bool.not_eq_true']

/-! ## Streaming loop (app.py lines 317-327) -/

/-- One run of the `for chunk in r.iter_content(...)` loop (lines 317-327)
over a schedule of iterations, each giving the stop-event value observed at
the top of the iteration and the chunk delivered.  When the stop event is
set the run returns immediately (status `Paused`), writing nothing further;
otherwise a non-empty chunk is written and its length added to
`self.downloaded`.  Returns the sequence of `downloaded` values observable
after each iteration, and whether the run ended paused. -/
def workerLoop (d : ℕ) : List (Bool × List ℕ) → List ℕ × Bool
  | [] => ([], false)
  | (stopSet, chunk) :: rest =>
    if stopSet then ([], true)
    else
      let dNew := if chunk ≠ [] then d + chunk.length else d
      let r := workerLoop dNew rest
      (dNew :: r.1, r.2)

/-- C9: within a single running transfer, `downloaded_bytes` is
monotonically non-decreasing — the successive observable values of
`downloaded` starting from the run's initial value form a `≤`-chain, each
chunk only adding its length. -/
theorem downloaded_monotone (d : ℕ) (evs : List (Bool × List ℕ)) :
    List.Chain (fun a b => a ≤ b) d (workerLoop d evs).1 := by
  induction evs generalizing d with
  | nil => simp [workerLoop]
  | cons e rest ih =>
    obtain ⟨stopSet, chunk⟩ := e
    by_cases hs : stopSet
    · simp [workerLoop, hs]
    · by_cases hc : chunk = []
      · simp only [workerLoop, hs, if_false, hc]
        exact List.Chain.cons (le_refl d) (by simpa [hc] using ih d)
      · simp only [workerLoop, hs, if_false]
        refine List.Chain.cons ?_ ?_
        · simp [hc]
        · simpa [hc] using ih (d + chunk.length)

/-! ## Rate / ETA estimator (app.py lines 328-349) -/

/-- One `(timestamp, inst_speed)` entry of `self._speed_window`. -/
structure Sample where
  t : ℚ
  rate : ℚ
deriving DecidableEq, Repr

/-- The estimator's state: the `deque(maxlen=50)` of samples and the derived
`speed_bps` / `eta_seconds` fields. -/
structure EstState where
  window : List Sample
  speed_bps : ℚ
  eta_seconds : Option ℚ
deriving DecidableEq, Repr

/-- Append to a `deque(maxlen=50)`: the oldest entries are evicted once the
capacity is exceeded. -/
def dequeAppend (w : List Sample) (s : Sample) : List Sample :=
  let wNew := w ++ [s]
  if 50 < wNew.length then wNew.drop (wNew.length - 50) else wNew

/-- `speeds = [s for t, s in window if t >= now - 5]` (line 338). -/
def windowSpeeds (w : List Sample) (now : ℚ) : List ℚ :=
  (w.filter (fun s => now - 5 ≤ s.t)).map Sample.rate

/-- `sum(speeds) / len(speeds) if speeds else 0.0` (line 339). -/
def avgSpeed (speeds : List ℚ) : ℚ :=
  if speeds = [] then 0 else speeds.sum / (speeds.length : ℚ)

/-- Lines 341-345: `remain = max(total_size - downloaded, 0)` and
`eta = remain / speed_bps if speed_bps > 0 else None`, only when
`total_size` is truthy (known and non-zero); otherwise `None`. -/
def etaOf (totalSize : Option ℕ) (downloaded : ℕ) (speed : ℚ) : Option ℚ :=
  match totalSize with
  | some ts =>
    if ts ≠ 0 then
      if 0 < speed then
        some (max ((ts : ℚ) - (downloaded : ℚ)) 0 / speed)
      else none
    else none
  | none => none

/-- The estimator recompute (lines 331-345), entered only when
`dt = now - last_time > 0`: append the instantaneous rate
`(downloaded - last_bytes) / dt` to the window, average the samples of the
last 5 seconds into `speed_bps`, and derive `eta_seconds`.  When `dt ≤ 0`
the whole block is skipped and the estimator fields are unchanged. -/
def recompute (downloaded lastBytes : ℕ) (totalSize : Option ℕ)
    (now lastTime : ℚ) (est : EstState) : EstState :=
  if 0 < now - lastTime then
    let inst := ((downloaded : ℚ) - (lastBytes : ℚ)) / (now - lastTime)
    let w := dequeAppend est.window { t := now, rate := inst }
    let speed := avgSpeed (windowSpeeds w now)
    { window := w, speed_bps := speed,
      eta_seconds := etaOf totalSize downloaded speed }
  else est

/-- The estimator's bounds invariant: `speed_bps` non-negative, every
present `eta_seconds` non-negative, every stored rate non-negative, and an
ETA is only ever present when `speed_bps` is strictly positive (the guard of
the ETA division). -/
def EstInv (e : EstState) : Prop :=
  0 ≤ e.speed_bps ∧ (∀ x ∈ e.eta_seconds, 0 ≤ x) ∧
  (∀ s ∈ e.window, 0 ≤ s.rate) ∧ (e.eta_seconds ≠ none → 0 < e.speed_bps)

theorem mem_dequeAppend {w : List Sample} {s x : Sample}
    (hx : x ∈ dequeAppend w s) : x ∈ w ∨ x = s := by
  have hx' : x ∈ w ++ [s] := by
    by_cases h : 50 < w.length + 1
    · have hd : x ∈ List.drop (w.length - 49) (w ++ [s]) := by
        simpa [dequeAppend, h] using hx
      exact List.mem_of_mem_drop hd
    · simpa [dequeAppend, h] using hx
  simpa using hx'

theorem avgSpeed_nonneg {speeds : List ℚ} (h : ∀ x ∈ speeds, 0 ≤ x) :
    0 ≤ avgSpeed speeds := by
  unfold avgSpeed
  split
  · exact le_refl 0
  · exact div_nonneg (List.sum_nonneg h) (by positivity)

theorem etaOf_nonneg (totalSize : Option ℕ) (downloaded : ℕ) (speed : ℚ) :
    ∀ x ∈ etaOf totalSize downloaded speed, 0 ≤ x := by
  intro x hx
  unfold etaOf at hx
  rcases totalSize with _ | ts
  · simp at hx
  · simp only at hx
    split at hx
    · split at hx
      · next hsp =>
        simp only [Option.mem_def, Option.some.injEq] at hx
        subst hx
        exact div_nonneg (le_max_right _ _) (le_of_lt hsp)
      · simp at hx
    · simp at hx

theorem etaOf_ne_none {totalSize : Option ℕ} {downloaded : ℕ} {speed : ℚ}
    (h : etaOf totalSize downloaded speed ≠ none) : 0 < speed := by
  unfold etaOf at h
  rcases totalSize with _ | ts
  · simp at h
  · simp only at h
    split at h
    · split at h
      · assumption
      · simp at h
    · simp at h

/-- C6: at every recompute, provided the loop's bookkeeping invariant
(`last_bytes` is an earlier value of the non-decreasing `downloaded`) and
the estimator's own invariant hold, the recomputed state again satisfies the
invariant: `speed_bps ≥ 0`, `eta_seconds` is non-negative or the distinct
unknown value `none`, and an ETA is present only when `speed_bps > 0`.  Each
division of the recompute sits under its guard: the instantaneous rate under
`dt > 0`, the window average under a non-empty sample list, the ETA under
`speed_bps > 0`. -/
theorem estimator_bounds (downloaded lastBytes : ℕ) (totalSize : Option ℕ)
    (now lastTime : ℚ) (est : EstState)
    (hmono : lastBytes ≤ downloaded) (hinv : EstInv est) :
    EstInv (recompute downloaded lastBytes totalSize now lastTime est) := by
  unfold recompute
  split
  · next hdt =>
    obtain ⟨-, -, hwin, -⟩ := hinv
    have hinst : 0 ≤ ((downloaded : ℚ) - (lastBytes : ℚ)) / (now - lastTime) := by
      apply div_nonneg _ (le_of_lt hdt)
      have : (lastBytes : ℚ) ≤ (downloaded : ℚ) := by exact_mod_cast hmono
      linarith
    have hw : ∀ s ∈ dequeAppend est.window
        { t := now, rate := ((downloaded : ℚ) - (lastBytes : ℚ)) / (now - lastTime) },
        0 ≤ s.rate := by
      intro s hs
      rcases mem_dequeAppend hs with h | h
      · exact hwin s h
      · rw [h]
        exact hinst
    have hsp : ∀ x ∈ windowSpeeds (dequeAppend est.window
        { t := now, rate := ((downloaded : ℚ) - (lastBytes : ℚ)) / (now - lastTime) })
        now, 0 ≤ x := by
      intro x hx
      unfold windowSpeeds at hx
      obtain ⟨s, hs, rfl⟩ := List.mem_map.1 hx
      exact hw s (List.mem_of_mem_filter hs)
    refine ⟨avgSpeed_nonneg hsp, etaOf_nonneg _ _ _, hw, ?_⟩
    intro hne
    exact etaOf_ne_none hne
  · exact hinv

/-- Witness for C6 at a concrete recompute: 4000 bytes downloaded, 1000 at
the previous sample, total 10000, one second elapsed, empty window. -/
theorem estimator_bounds_witness :
    EstInv (recompute 4000 1000 (some 10000) 1 0
      { window := [], speed_bps := 0, eta_seconds := none }) :=
  estimator_bounds 4000 1000 (some 10000) 1 0
    { window := [], speed_bps := 0, eta_seconds := none }
    (by norm_num) (by simp [EstInv])

end App
